import Mathlib

/-!
Verification development for the pr-notifier watch engine.

This file gives a shallow embedding, in Lean 4, of the watch engine of the
pr-notifier repository (TypeScript): the snapshot data model (`types.ts`),
the change detector (`event-detector.ts`), the stop-condition evaluator and
quiescence heuristic (`index.ts`), the retry/backoff executor
(`retry-handler.ts`), the multi-entity coordinator (`multi-pr-watcher.ts`),
the resolver and notifier boundaries, and the two top-level watch entry
points (`index.ts`).  Effectful TypeScript is rendered as explicit state
passing; external collaborators (GitHub fetch, `execSync`, the ticket
resolver) are modelled as oracle functions returning `Except`; wall-clock
time is an oracle `Nat → Nat` (epoch milliseconds per loop iteration); a
thrown `Error` is its message `String`.  Theorems about the embedded
definitions follow the definitions.
-/

/-! ## Data model (`types.ts`) -/

/-- `CheckStatus` from `types.ts`:
`"pending" | "success" | "failure" | "neutral" | "cancelled" | "skipped"`. -/
inductive CheckStatus
  | pending
  | success
  | failure
  | neutral
  | cancelled
  | skipped
deriving Repr, DecidableEq

/-- `ReviewState` from `types.ts`. -/
inductive ReviewState
  | APPROVED
  | CHANGES_REQUESTED
  | COMMENTED
  | DISMISSED
  | PENDING
deriving Repr, DecidableEq

/-- `PRState` from `types.ts`: `"OPEN" | "CLOSED" | "MERGED"`. -/
inductive PRState
  | OPEN
  | CLOSED
  | MERGED
deriving Repr, DecidableEq

/-- The `mergeable` field of a snapshot:
`"MERGEABLE" | "CONFLICTING" | "UNKNOWN"`. -/
inductive Mergeable
  | MERGEABLE
  | CONFLICTING
  | UNKNOWN
deriving Repr, DecidableEq

/-- `CheckRun` from `types.ts`.  The optional timestamps are modelled as
epoch milliseconds (the source stores ISO strings and converts with
`new Date(...)`). -/
structure CheckRun where
  name : String
  status : CheckStatus
  conclusion : Option CheckStatus
  startedAt : Option Nat := none
  completedAt : Option Nat := none
  detailsUrl : Option String := none
deriving Repr, DecidableEq

/-- `Review` from `types.ts`. -/
structure Review where
  id : String
  author : String
  state : ReviewState
  submittedAt : String := ""
  body : Option String := none
deriving Repr, DecidableEq

/-- `Comment` from `types.ts`. -/
structure Comment where
  id : String
  author : String
  body : String
  createdAt : String := ""
  url : String := ""
deriving Repr, DecidableEq

/-- `PRSnapshot` from `types.ts`.  `timestamp` is epoch milliseconds. -/
structure PRSnapshot where
  number : Nat
  title : String
  state : PRState
  isDraft : Bool
  mergeable : Mergeable
  checks : List CheckRun
  reviews : List Review
  comments : List Comment
  reviewers : List String := []
  timestamp : Nat := 0
deriving Repr, DecidableEq

/-- The `type` field of `PREvent`. -/
inductive PREventType
  | check
  | review
  | comment
  | status
  | conflict
deriving Repr, DecidableEq

/-- The `severity` field of `PREvent`. -/
inductive Severity
  | info
  | success
  | warning
  | error
deriving Repr, DecidableEq

/-- The `details?: any` payload of a `PREvent`: in the source it is always
the originating `CheckRun`, `Review` or `Comment` record. -/
inductive EventDetail
  | check : CheckRun → EventDetail
  | review : Review → EventDetail
  | comment : Comment → EventDetail
deriving Repr, DecidableEq

/-- `PREvent` from `types.ts`.  `timestamp` (a `Date` in the source) is
epoch milliseconds. -/
structure PREvent where
  type : PREventType
  message : String
  severity : Severity
  timestamp : Nat
  details : Option EventDetail := none
deriving Repr, DecidableEq

/-- `NotifyFilter` from `types.ts`. -/
inductive NotifyFilter
  | all
  | checks
  | reviews
  | comments
deriving Repr, DecidableEq

/-- `UntilCondition` from `types.ts`:
`"checks-pass" | "approved" | "merged" | "closed"`. -/
inductive UntilCondition
  | checksPass
  | approved
  | merged
  | closed
deriving Repr, DecidableEq

/-- Rendering of a `PRState` as its TypeScript string literal. -/
def prStateToString : PRState → String
  | PRState.OPEN => "OPEN"
  | PRState.CLOSED => "CLOSED"
  | PRState.MERGED => "MERGED"

/-- Rendering of an `UntilCondition` as its TypeScript string literal. -/
def untilToString : UntilCondition → String
  | UntilCondition.checksPass => "checks-pass"
  | UntilCondition.approved => "approved"
  | UntilCondition.merged => "merged"
  | UntilCondition.closed => "closed"

/-- Rendering of a `NotifyFilter` as its TypeScript string literal. -/
def notifyFilterToString : NotifyFilter → String
  | NotifyFilter.all => "all"
  | NotifyFilter.checks => "checks"
  | NotifyFilter.reviews => "reviews"
  | NotifyFilter.comments => "comments"

/-- Rendering of a `ReviewState` as its TypeScript string literal. -/
def reviewStateToString : ReviewState → String
  | ReviewState.APPROVED => "APPROVED"
  | ReviewState.CHANGES_REQUESTED => "CHANGES_REQUESTED"
  | ReviewState.COMMENTED => "COMMENTED"
  | ReviewState.DISMISSED => "DISMISSED"
  | ReviewState.PENDING => "PENDING"

/-! ## Change detector (`event-detector.ts`) -/

/-- `EventDetector.createInitialEvent`: the synthetic status event emitted
on the first observation of a PR. -/
def EventDetector.createInitialEvent (now : Nat) (snapshot : PRSnapshot) : PREvent :=
  let totalChecks := snapshot.checks.length
  let passedChecks := (snapshot.checks.filter fun c =>
    c.conclusion == some CheckStatus.success || c.status == CheckStatus.success).length
  let failedChecks := (snapshot.checks.filter fun c =>
    c.conclusion == some CheckStatus.failure || c.status == CheckStatus.failure).length
  let pendingChecks := (snapshot.checks.filter fun c =>
    c.status == CheckStatus.pending
      || (c.conclusion == none && c.status != CheckStatus.success)).length
  let statusText :=
    "Monitoring PR #" ++ toString snapshot.number ++ ": " ++ snapshot.title ++ "\n"
      ++ "State: " ++ prStateToString snapshot.state
      ++ (if snapshot.isDraft then " (Draft)" else "") ++ "\n"
      ++ "Checks: " ++ toString passedChecks ++ " passed, "
      ++ toString failedChecks ++ " failed, "
      ++ toString pendingChecks ++ " pending ("
      ++ toString totalChecks ++ " total)\n"
      ++ "Reviews: " ++ toString snapshot.reviews.length ++ "\n"
      ++ "Comments: " ++ toString snapshot.comments.length
  { type := PREventType.status
    message := statusText
    severity := Severity.info
    timestamp := now }

/-- `EventDetector.detectCheckChanges`: per current check, look up the
previous check with the same name; emit a started event for a new pending
check, a completed event on a conclusion change to a non-null conclusion. -/
def EventDetector.detectCheckChanges (now : Nat) (previous current : List CheckRun) :
    List PREvent :=
  current.flatMap fun check =>
    match previous.find? (fun c => c.name == check.name) with
    | none =>
      if check.status == CheckStatus.pending then
        [{ type := PREventType.check
           message := "🔄 Check started: " ++ check.name
           severity := Severity.info
           timestamp := now
           details := some (EventDetail.check check) }]
      else []
    | some prev =>
      match check.conclusion with
      | none => []
      | some concl =>
        if prev.conclusion != check.conclusion then
          let emoji := if concl == CheckStatus.success then "✅"
            else if concl == CheckStatus.failure then "❌" else "⚠️"
          let severity := if concl == CheckStatus.success then Severity.success
            else if concl == CheckStatus.failure then Severity.error
            else Severity.warning
          [{ type := PREventType.check
             message := emoji ++ " Check " ++
               (match concl with
                | CheckStatus.pending => "pending"
                | CheckStatus.success => "success"
                | CheckStatus.failure => "failure"
                | CheckStatus.neutral => "neutral"
                | CheckStatus.cancelled => "cancelled"
                | CheckStatus.skipped => "skipped") ++ ": " ++ check.name
             severity := severity
             timestamp := now
             details := some (EventDetail.check check) }]
        else []

/-- The review-state text used in review event messages:
`state.replace(/_/g, " ").toLowerCase()` applied to each enum value. -/
def reviewStateText : ReviewState → String
  | ReviewState.APPROVED => "approved"
  | ReviewState.CHANGES_REQUESTED => "changes requested"
  | ReviewState.COMMENTED => "commented"
  | ReviewState.DISMISSED => "dismissed"
  | ReviewState.PENDING => "pending"

/-- `EventDetector.detectReviewChanges`: one event per review in `current`
whose id does not occur in `previous`, in original order. -/
def EventDetector.detectReviewChanges (now : Nat) (previous current : List Review) :
    List PREvent :=
  let newReviews := current.filter fun r => !(previous.any fun p => p.id == r.id)
  newReviews.map fun review =>
    let emoji := if review.state == ReviewState.APPROVED then "✅"
      else if review.state == ReviewState.CHANGES_REQUESTED then "🔧" else "💬"
    { type := PREventType.review
      message := emoji ++ " Review by " ++ review.author ++ ": "
        ++ reviewStateText review.state
      severity := if review.state == ReviewState.APPROVED then Severity.success
        else Severity.info
      timestamp := now
      details := some (EventDetail.review review) }

/-- `EventDetector.detectCommentChanges`: one event per comment in
`current` whose id does not occur in `previous`; the message carries a
preview of the first 100 characters of the body. -/
def EventDetector.detectCommentChanges (now : Nat) (previous current : List Comment) :
    List PREvent :=
  let newComments := current.filter fun c => !(previous.any fun p => p.id == c.id)
  newComments.map fun comment =>
    let preview := String.mk (comment.body.data.take 100)
      ++ (if comment.body.data.length > 100 then "..." else "")
    { type := PREventType.comment
      message := "💬 Comment by " ++ comment.author ++ ": " ++ preview
      severity := Severity.info
      timestamp := now
      details := some (EventDetail.comment comment) }

/-- `EventDetector.detectStatusChanges`: one-directional lifecycle
transition events, in source order (draft→ready, merged, closed,
conflicting). -/
def EventDetector.detectStatusChanges (now : Nat) (previous current : PRSnapshot) :
    List PREvent :=
  (if previous.isDraft && !current.isDraft then
    [{ type := PREventType.status
       message := "🎯 PR marked as ready for review"
       severity := Severity.success
       timestamp := now }]
   else [])
  ++ (if previous.state != PRState.MERGED && current.state == PRState.MERGED then
    [{ type := PREventType.status
       message := "🎉 PR merged!"
       severity := Severity.success
       timestamp := now }]
   else [])
  ++ (if previous.state != PRState.CLOSED && current.state == PRState.CLOSED then
    [{ type := PREventType.status
       message := "🚫 PR closed"
       severity := Severity.warning
       timestamp := now }]
   else [])
  ++ (if previous.mergeable != Mergeable.CONFLICTING
        && current.mergeable == Mergeable.CONFLICTING then
    [{ type := PREventType.conflict
       message := "⚠️ Merge conflicts detected"
       severity := Severity.warning
       timestamp := now }]
   else [])

/-- `EventDetector.detectChanges`: the top-level diff.  With no previous
snapshot it returns the single initial event; otherwise it concatenates the
four passes in the fixed order checks, reviews, comments, status. -/
def EventDetector.detectChanges (now : Nat) (previous : Option PRSnapshot)
    (current : PRSnapshot) : List PREvent :=
  match previous with
  | none => [EventDetector.createInitialEvent now current]
  | some prev =>
    EventDetector.detectCheckChanges now prev.checks current.checks
      ++ EventDetector.detectReviewChanges now prev.reviews current.reviews
      ++ EventDetector.detectCommentChanges now prev.comments current.comments
      ++ EventDetector.detectStatusChanges now prev current

/-! ## Stop-condition evaluator and quiescence heuristic (`index.ts`) -/

/-- `shouldStopWatching` from `index.ts`.  The condition is optional here:
`none` reaches the `default` branch of the source's `switch` (no declared
or an unknown condition), which returns `false`. -/
def shouldStopWatching (snapshot : PRSnapshot) (condition : Option UntilCondition) :
    Bool :=
  match condition with
  | some UntilCondition.checksPass =>
    snapshot.checks.all fun c =>
      c.conclusion == some CheckStatus.success
        || c.conclusion == some CheckStatus.skipped
        || c.conclusion == some CheckStatus.neutral
  | some UntilCondition.approved =>
    snapshot.reviews.any fun r => r.state == ReviewState.APPROVED
  | some UntilCondition.merged => snapshot.state == PRState.MERGED
  | some UntilCondition.closed =>
    snapshot.state == PRState.CLOSED || snapshot.state == PRState.MERGED
  | none => false

/-- `shouldAutoStop` from `index.ts`: the implicit quiescence heuristic.
True when the PR is merged or closed, or when every check concluded
success/skipped/neutral and some review is an approval. -/
def shouldAutoStop (snapshot : PRSnapshot) : Bool :=
  if snapshot.state == PRState.MERGED || snapshot.state == PRState.CLOSED then true
  else
    let allChecksPassed := snapshot.checks.all fun c =>
      c.conclusion == some CheckStatus.success
        || c.conclusion == some CheckStatus.skipped
        || c.conclusion == some CheckStatus.neutral
    let hasApproval := snapshot.reviews.any fun r => r.state == ReviewState.APPROVED
    allChecksPassed && hasApproval

/-! ## Retry/backoff executor (`retry-handler.ts`)

The executor's `async execute` is modelled as a pure function taking the
operation as an oracle `Nat → Except String α` (result per 0-indexed
attempt), the instance's `consecutiveFailures` counter as an explicit input,
and returning the call's outcome together with the updated counter, the
backoff delays slept, and how many times the operation ran. -/

/-- `RetryOptions` from `retry-handler.ts`.  Delays are milliseconds. -/
structure RetryOptions where
  maxRetries : Nat
  baseDelay : Nat
  maxDelay : Nat
  backoffMultiplier : Nat
deriving Repr, DecidableEq

/-- The constructor-default options of `RetryHandler`. -/
def RetryHandler.defaultOptions : RetryOptions :=
  { maxRetries := 5, baseDelay := 1000, maxDelay := 60000, backoffMultiplier := 2 }

/-- `RetryHandler.calculateDelay`:
`min(baseDelay * backoffMultiplier ^ attempt, maxDelay)`. -/
def RetryHandler.calculateDelay (o : RetryOptions) (attempt : Nat) : Nat :=
  min (o.baseDelay * o.backoffMultiplier ^ attempt) o.maxDelay

/-- Outcome of one `RetryHandler.execute` call: the returned value or the
thrown error message, the instance's `consecutiveFailures` counter after the
call, the backoff delays slept between attempts, and the number of times
the wrapped operation was invoked. -/
structure RetryResult (α : Type) where
  result : Except String α
  failures : Nat
  sleeps : List Nat
  attempts : Nat

/-- The attempt loop of `RetryHandler.execute`, by structural recursion on
the remaining fuel.  Called with fuel `maxRetries + 1 - attempt`; the fuel-0
branch is unreachable because the loop breaks at `attempt == maxRetries`. -/
def RetryHandler.executeFrom {α : Type} (o : RetryOptions) (fn : Nat → Except String α)
    (context : String) : Nat → Nat → Nat → RetryResult α
  | 0, _, failures =>
    { result := Except.error (context ++ " failed")
      failures := failures, sleeps := [], attempts := 0 }
  | fuel + 1, attempt, failures =>
    match fn attempt with
    | Except.ok v =>
      { result := Except.ok v, failures := 0, sleeps := [], attempts := 1 }
    | Except.error e =>
      let failures' := failures + 1
      if attempt == o.maxRetries then
        { result := Except.error (context ++ " failed after "
            ++ toString (o.maxRetries + 1) ++ " attempts: " ++ e)
          failures := failures', sleeps := [], attempts := 1 }
      else
        let d := RetryHandler.calculateDelay o attempt
        let r := RetryHandler.executeFrom o fn context fuel (attempt + 1) failures'
        { result := r.result, failures := r.failures
          sleeps := d :: r.sleeps, attempts := r.attempts + 1 }

/-- `RetryHandler.execute`: run the operation up to `maxRetries + 1` times
starting from the given `consecutiveFailures` counter value. -/
def RetryHandler.execute {α : Type} (o : RetryOptions) (fn : Nat → Except String α)
    (context : String) (failures : Nat) : RetryResult α :=
  RetryHandler.executeFrom o fn context (o.maxRetries + 1) 0 failures

/-- The three health classes of `RetryHandler.getHealthStatus`. -/
inductive HealthStatus
  | healthy
  | degraded
  | unhealthy
deriving Repr, DecidableEq

/-- `RetryHandler.getHealthStatus` as a pure function of the
`consecutiveFailures` counter. -/
def RetryHandler.getHealthStatus (consecutiveFailures : Nat) : HealthStatus :=
  if consecutiveFailures == 0 then HealthStatus.healthy
  else if consecutiveFailures ≤ 2 then HealthStatus.degraded
  else HealthStatus.unhealthy

/-! ## Multi-entity coordinator (`multi-pr-watcher.ts`)

The watcher's `Map<number, MultiPRState>` iterates in insertion order, so
it is modelled as a `List MultiPRState`; the per-cycle fetcher is an oracle
`Nat → Except String PRSnapshot` from PR number to fetch outcome. -/

/-- `MultiPRState` from `multi-pr-watcher.ts`. -/
structure MultiPRState where
  prNumber : Nat
  snapshot : Option PRSnapshot
  events : List PREvent
  isComplete : Bool
deriving Repr, DecidableEq

/-- `MultiPRWatcher.initialize`: one fresh state per PR number. -/
def MultiPRWatcher.initStates (prNumbers : List Nat) : List MultiPRState :=
  prNumbers.map fun prNumber =>
    { prNumber := prNumber, snapshot := none, events := [], isComplete := false }

/-- `MultiPRWatcher.isComplete`: merged/closed, or all checks concluded
success/skipped/neutral and some review approved. -/
def MultiPRWatcher.isComplete (snapshot : PRSnapshot) : Bool :=
  if snapshot.state == PRState.MERGED || snapshot.state == PRState.CLOSED then true
  else
    let allChecksPassed := snapshot.checks.all fun c =>
      c.conclusion == some CheckStatus.success
        || c.conclusion == some CheckStatus.skipped
        || c.conclusion == some CheckStatus.neutral
    let hasApproval := snapshot.reviews.any fun r => r.state == ReviewState.APPROVED
    allChecksPassed && hasApproval

/-- One iteration of the loop body of `MultiPRWatcher.fetchAll` for a
single per-PR state: skip complete states; a fetch failure is caught and
logged (the state is left unchanged); on success diff, append events,
replace the snapshot, possibly mark complete, and report the new events
when there are any. -/
def MultiPRWatcher.fetchAllStep (now : Nat) (fetch : Nat → Except String PRSnapshot)
    (state : MultiPRState) : MultiPRState × Option (Nat × List PREvent) :=
  if state.isComplete then (state, none)
  else
    match fetch state.prNumber with
    | Except.error _ => (state, none)
    | Except.ok currentSnapshot =>
      let events := EventDetector.detectChanges now state.snapshot currentSnapshot
      let state1 := { state with
        snapshot := some currentSnapshot
        events := state.events ++ events }
      let state2 := if MultiPRWatcher.isComplete currentSnapshot then
          { state1 with isComplete := true }
        else state1
      (state2, if events.length > 0 then some (state.prNumber, events) else none)

/-- `MultiPRWatcher.fetchAll`: run the step over every state in order,
collecting the per-PR new-event map entries in iteration order. -/
def MultiPRWatcher.fetchAll (now : Nat) (fetch : Nat → Except String PRSnapshot) :
    List MultiPRState → List MultiPRState × List (Nat × List PREvent)
  | [] => ([], [])
  | s :: rest =>
    let (s', entry) := MultiPRWatcher.fetchAllStep now fetch s
    let (rest', entries) := MultiPRWatcher.fetchAll now fetch rest
    (s' :: rest', match entry with
      | some p => p :: entries
      | none => entries)

/-- `MultiPRWatcher.areAllComplete`: conjunction of all completion flags. -/
def MultiPRWatcher.areAllComplete (states : List MultiPRState) : Bool :=
  states.all fun state => state.isComplete

/-! ## Generic list helpers -/

/-- A `flatMap` whose function returns `[]` on every element is `[]`. -/
theorem flatMap_eq_nil_of_forall {α β : Type} {l : List α} {f : α → List β}
    (h : ∀ a ∈ l, f a = []) : l.flatMap f = [] := by
  induction l with
  | nil => rfl
  | cons a t ih =>
    simp only [List.flatMap_cons, h a (List.mem_cons_self a t)]
    exact ih fun x hx => h x (List.mem_cons_of_mem a hx)

/-- A `filter` whose predicate is false on every element is `[]`. -/
theorem filter_eq_nil_of_forall {α : Type} {l : List α} {p : α → Bool}
    (h : ∀ a ∈ l, p a = false) : l.filter p = [] := by
  induction l with
  | nil => rfl
  | cons a t ih =>
    simp only [List.filter_cons, h a (List.mem_cons_self a t)]
    exact ih fun x hx => h x (List.mem_cons_of_mem a hx)

/-! ## Theorems: stop-condition evaluator (C3) and quiescence heuristic (C7) -/

/-- C3: stop-condition evaluation.  `checks-pass` holds iff every check's
conclusion is success/skipped/neutral (vacuously on an empty check list);
`approved` iff some review is APPROVED; `merged` iff the state is MERGED;
`closed` iff the state is CLOSED or MERGED (so merged implies closed); and
with no declared (or an unknown) condition the predicate is false. -/
theorem shouldStopWatching_spec (S : PRSnapshot) :
    (shouldStopWatching S (some UntilCondition.checksPass) = true ↔
      ∀ c ∈ S.checks, c.conclusion = some CheckStatus.success
        ∨ c.conclusion = some CheckStatus.skipped
        ∨ c.conclusion = some CheckStatus.neutral) ∧
    (S.checks = [] → shouldStopWatching S (some UntilCondition.checksPass) = true) ∧
    (shouldStopWatching S (some UntilCondition.approved) = true ↔
      ∃ r ∈ S.reviews, r.state = ReviewState.APPROVED) ∧
    (shouldStopWatching S (some UntilCondition.merged) = true ↔
      S.state = PRState.MERGED) ∧
    (shouldStopWatching S (some UntilCondition.closed) = true ↔
      (S.state = PRState.CLOSED ∨ S.state = PRState.MERGED)) ∧
    (S.state = PRState.MERGED →
      shouldStopWatching S (some UntilCondition.closed) = true) ∧
    shouldStopWatching S none = false := by
  refine ⟨?_, ?_, ?_, ?_, ?_, ?_, rfl⟩
  · simp [shouldStopWatching, List.all_eq_true, or_assoc]
  · intro h; simp [shouldStopWatching, h]
  · simp [shouldStopWatching, List.any_eq_true]
  · simp [shouldStopWatching]
  · simp [shouldStopWatching]
  · intro h; simp [shouldStopWatching, h]

/-- A merged snapshot with no checks and no reviews, used as a witness and
as the C7 counterexample input. -/
def emptyMergedSnapshot : PRSnapshot :=
  { number := 7, title := "demo", state := PRState.MERGED, isDraft := false
    mergeable := Mergeable.UNKNOWN, checks := [], reviews := [], comments := [] }

/-- Witness for C3 at a concrete snapshot: merged implies the `closed`
condition is met. -/
theorem shouldStopWatching_spec_witness :
    emptyMergedSnapshot.state = PRState.MERGED ∧
    shouldStopWatching emptyMergedSnapshot (some UntilCondition.closed) = true :=
  ⟨rfl, (shouldStopWatching_spec emptyMergedSnapshot).2.2.2.2.2.1 rfl⟩

/-- C7 counterexample: a snapshot with zero checks and zero reviews whose
lifecycle state is MERGED does satisfy `shouldAutoStop` (the terminal-state
branch fires before the checks/approval test), contradicting the claim that
no snapshot with zero checks and zero reviews satisfies the heuristic. -/
theorem shouldAutoStop_zero_checks_counterexample :
    emptyMergedSnapshot.checks = [] ∧ emptyMergedSnapshot.reviews = [] ∧
    shouldAutoStop emptyMergedSnapshot = true := by
  refine ⟨rfl, rfl, rfl⟩

/-- C7 (amended): a snapshot with zero checks, zero reviews and OPEN
(non-terminal) lifecycle state never satisfies `shouldAutoStop`: the empty
check list makes `allChecksPassed` vacuously true but there is no approval,
so only the iteration cap can end such a watch. -/
theorem shouldAutoStop_open_quiescence (S : PRSnapshot)
    (hs : S.state = PRState.OPEN) (hc : S.checks = []) (hr : S.reviews = []) :
    shouldAutoStop S = false := by
  simp [shouldAutoStop, hs, hc, hr]

/-- An open snapshot with no checks and no reviews. -/
def emptyOpenSnapshot : PRSnapshot :=
  { number := 8, title := "demo", state := PRState.OPEN, isDraft := false
    mergeable := Mergeable.UNKNOWN, checks := [], reviews := [], comments := [] }

/-- Witness for the amended C7 at a concrete open snapshot. -/
theorem shouldAutoStop_open_quiescence_witness :
    emptyOpenSnapshot.state = PRState.OPEN ∧
    shouldAutoStop emptyOpenSnapshot = false :=
  ⟨rfl, shouldAutoStop_open_quiescence emptyOpenSnapshot rfl rfl rfl⟩

/-! ## Theorems: change detector baseline (C4) -/

/-- C4: on the first observation (`previous = none`) the detector returns
exactly one event — the synthetic status event, with severity info —
whatever the snapshot contains; no check, review, comment or transition
events are emitted. -/
theorem detectChanges_baseline (now : Nat) (S : PRSnapshot) :
    EventDetector.detectChanges now none S
        = [EventDetector.createInitialEvent now S] ∧
    (EventDetector.createInitialEvent now S).type = PREventType.status ∧
    (EventDetector.createInitialEvent now S).severity = Severity.info :=
  ⟨rfl, rfl, rfl⟩

/-! ## Theorems: retry/backoff executor (C1, C6) -/

/-- C1: with `maxRetries = 2`, `baseDelay = 1000`, `backoffMultiplier = 2`
(and any `maxDelay ≥ 2000`), an operation failing on every attempt is
attempted exactly 3 times, the backoff sleeps are `[1000, 2000]`, the call
ends in a terminal error wrapping the label, the attempt count 3 and the
last underlying error, the consecutive-failure counter ends at 3, and the
health is unhealthy. -/
theorem retry_backoff_sequence (α : Type) (maxDelay : Nat) (hD : 2000 ≤ maxDelay)
    (e : Nat → String) (context : String) :
    (RetryHandler.execute ⟨2, 1000, maxDelay, 2⟩
        (fun i => (Except.error (e i) : Except String α)) context 0).attempts = 3 ∧
    (RetryHandler.execute ⟨2, 1000, maxDelay, 2⟩
        (fun i => (Except.error (e i) : Except String α)) context 0).sleeps = [1000, 2000] ∧
    (RetryHandler.execute ⟨2, 1000, maxDelay, 2⟩
        (fun i => (Except.error (e i) : Except String α)) context 0).result
      = Except.error (context ++ " failed after " ++ toString 3
          ++ " attempts: " ++ e 2) ∧
    (RetryHandler.execute ⟨2, 1000, maxDelay, 2⟩
        (fun i => (Except.error (e i) : Except String α)) context 0).failures = 3 ∧
    RetryHandler.getHealthStatus
      (RetryHandler.execute ⟨2, 1000, maxDelay, 2⟩
        (fun i => (Except.error (e i) : Except String α)) context 0).failures
      = HealthStatus.unhealthy := by
  have hstep : RetryHandler.execute ⟨2, 1000, maxDelay, 2⟩
      (fun i => (Except.error (e i) : Except String α)) context 0 =
      { result := Except.error (context ++ " failed after " ++ toString 3
          ++ " attempts: " ++ e 2)
        failures := 3
        sleeps := [RetryHandler.calculateDelay ⟨2, 1000, maxDelay, 2⟩ 0,
          RetryHandler.calculateDelay ⟨2, 1000, maxDelay, 2⟩ 1]
        attempts := 3 } := rfl
  have hd0 : RetryHandler.calculateDelay ⟨2, 1000, maxDelay, 2⟩ 0 = 1000 := by
    simp only [RetryHandler.calculateDelay]
    norm_num
    omega
  have hd1 : RetryHandler.calculateDelay ⟨2, 1000, maxDelay, 2⟩ 1 = 2000 := by
    simp only [RetryHandler.calculateDelay]
    norm_num
    omega
  rw [hstep, hd0, hd1]
  exact ⟨rfl, rfl, rfl, rfl, rfl⟩

/-- Witness for C1 at the source's default `maxDelay = 60000` and a
concrete always-failing operation. -/
theorem retry_backoff_sequence_witness :
    2000 ≤ 60000 ∧
    (RetryHandler.execute ⟨2, 1000, 60000, 2⟩
        (fun _ => Except.error (α := PRSnapshot) "network down")
        "Fetching PR #1085" 0).sleeps = [1000, 2000] ∧
    RetryHandler.getHealthStatus
      (RetryHandler.execute ⟨2, 1000, 60000, 2⟩
        (fun _ => Except.error (α := PRSnapshot) "network down")
        "Fetching PR #1085" 0).failures = HealthStatus.unhealthy :=
  ⟨by norm_num,
   (retry_backoff_sequence PRSnapshot 60000 (by norm_num)
      (fun _ => "network down") "Fetching PR #1085").2.1,
   (retry_backoff_sequence PRSnapshot 60000 (by norm_num)
      (fun _ => "network down") "Fetching PR #1085").2.2.2.2⟩

/-- Within one `execute` run, a success resets the counter to 0 and a fully
failed run leaves the counter at its initial value plus the number of
attempts made (each failed attempt incremented it by one). -/
theorem RetryHandler.executeFrom_failures {α : Type} (o : RetryOptions)
    (fn : Nat → Except String α) (context : String) :
    ∀ fuel attempt failures,
      (∀ v, (RetryHandler.executeFrom o fn context fuel attempt failures).result
          = Except.ok v →
        (RetryHandler.executeFrom o fn context fuel attempt failures).failures = 0) ∧
      (∀ e, (RetryHandler.executeFrom o fn context fuel attempt failures).result
          = Except.error e →
        (RetryHandler.executeFrom o fn context fuel attempt failures).failures
          = failures
            + (RetryHandler.executeFrom o fn context fuel attempt failures).attempts)
  | 0, attempt, failures => by
    constructor
    · intro v hv
      simp [RetryHandler.executeFrom] at hv
    · intro e _
      simp [RetryHandler.executeFrom]
  | fuel + 1, attempt, failures => by
    have ih := RetryHandler.executeFrom_failures o fn context fuel (attempt + 1)
      (failures + 1)
    constructor
    · intro v hv
      simp only [RetryHandler.executeFrom] at hv ⊢
      cases hfn : fn attempt with
      | ok w => simp [hfn]
      | error e =>
        simp only [hfn] at hv ⊢
        by_cases hat : (attempt == o.maxRetries) = true
        · simp [hat] at hv
        · simp only [hat, Bool.false_eq_true, if_false] at hv ⊢
          exact ih.1 v hv
    · intro e he
      simp only [RetryHandler.executeFrom] at he ⊢
      cases hfn : fn attempt with
      | ok w => simp [hfn] at he
      | error e' =>
        simp only [hfn] at he ⊢
        by_cases hat : (attempt == o.maxRetries) = true
        · simp [hat]
        · simp only [hat, Bool.false_eq_true, if_false] at he ⊢
          have := ih.2 e he
          omega

/-- C6: the retry health contract.  The consecutive-failure counter is an
input of `execute` (never reset at the start of a call): a successful call
resets it to 0, a wholly failed call returns it increased by exactly the
number of attempts made, and composing a second wholly failed call on the
returned counter accumulates both calls' attempts — the counter persists
across separate calls on the same instance.  Health is a pure function of
the counter: 0 is healthy, 1–2 degraded, 3 or more unhealthy. -/
theorem retry_health_contract {α : Type} (o : RetryOptions)
    (fn : Nat → Except String α) (context : String) (failures : Nat) :
    (∀ v, (RetryHandler.execute o fn context failures).result = Except.ok v →
      (RetryHandler.execute o fn context failures).failures = 0) ∧
    (∀ e, (RetryHandler.execute o fn context failures).result = Except.error e →
      (RetryHandler.execute o fn context failures).failures
        = failures + (RetryHandler.execute o fn context failures).attempts) ∧
    (∀ (fn₂ : Nat → Except String α) (context₂ : String) e e₂,
      (RetryHandler.execute o fn context failures).result = Except.error e →
      (RetryHandler.execute o fn₂ context₂
          (RetryHandler.execute o fn context failures).failures).result
        = Except.error e₂ →
      (RetryHandler.execute o fn₂ context₂
          (RetryHandler.execute o fn context failures).failures).failures
        = failures + (RetryHandler.execute o fn context failures).attempts
            + (RetryHandler.execute o fn₂ context₂
                (RetryHandler.execute o fn context failures).failures).attempts) ∧
    RetryHandler.getHealthStatus 0 = HealthStatus.healthy ∧
    (∀ n, 1 ≤ n → n ≤ 2 →
      RetryHandler.getHealthStatus n = HealthStatus.degraded) ∧
    (∀ n, 3 ≤ n →
      RetryHandler.getHealthStatus n = HealthStatus.unhealthy) := by
  refine ⟨?_, ?_, ?_, rfl, ?_, ?_⟩
  · exact fun v hv =>
      (RetryHandler.executeFrom_failures o fn context (o.maxRetries + 1) 0 failures).1
        v hv
  · exact fun e he =>
      (RetryHandler.executeFrom_failures o fn context (o.maxRetries + 1) 0 failures).2
        e he
  · intro fn₂ context₂ e e₂ he he₂
    have h1 := (RetryHandler.executeFrom_failures o fn context (o.maxRetries + 1) 0
      failures).2 e he
    have h2 := (RetryHandler.executeFrom_failures o fn₂ context₂ (o.maxRetries + 1) 0
      (RetryHandler.execute o fn context failures).failures).2 e₂ he₂
    simp only [RetryHandler.execute] at h1 h2 ⊢
    omega
  · intro n h1 h2
    have hne : ¬(n = 0) := by omega
    simp [RetryHandler.getHealthStatus, hne, h2]
  · intro n h3
    have hne : ¬(n = 0) := by omega
    have hgt : ¬(n ≤ 2) := by omega
    simp [RetryHandler.getHealthStatus, hne, hgt]

/-- Witness for C6: a two-retry executor started at counter 1 whose
operation always fails ends at counter `1 + attempts`, and counter 3 is
unhealthy. -/
theorem retry_health_contract_witness :
    (RetryHandler.execute ⟨1, 10, 100, 2⟩
        (fun _ => Except.error (α := Nat) "x") "op" 1).failures
      = 1 + (RetryHandler.execute ⟨1, 10, 100, 2⟩
        (fun _ => Except.error (α := Nat) "x") "op" 1).attempts ∧
    RetryHandler.getHealthStatus 3 = HealthStatus.unhealthy :=
  ⟨(retry_health_contract ⟨1, 10, 100, 2⟩
      (fun _ => Except.error (α := Nat) "x") "op" 1).2.1 _ rfl,
   (retry_health_contract ⟨1, 10, 100, 2⟩
      (fun _ => Except.error (α := Nat) "x") "op" 1).2.2.2.2.2 3 (by norm_num)⟩

/-! ## Theorems: no-op diff (C9) -/

/-- In a check list with pairwise-distinct names, the first check found
with the name of a member is that member itself. -/
theorem find_name_self {l : List CheckRun} (hnd : (l.map CheckRun.name).Nodup)
    {c : CheckRun} (hc : c ∈ l) :
    l.find? (fun x => x.name == c.name) = some c := by
  induction l with
  | nil => cases hc
  | cons a t ih =>
    simp only [List.map_cons, List.nodup_cons] at hnd
    rcases List.mem_cons.mp hc with rfl | hct
    · exact List.find?_cons_of_pos t (by simp)
    · have hne : ((fun x => x.name == c.name) a) = false := by
        simp only [beq_eq_false_iff_ne, ne_eq]
        intro h
        exact hnd.1 (h ▸ List.mem_map_of_mem CheckRun.name hct)
      rw [List.find?_cons_of_neg t (by simp [hne])]
      exact ih hnd.2 hct

/-- Diffing a check list against itself emits no events when check names
are unique within the list (the data-model invariant for snapshots). -/
theorem detectCheckChanges_self (now : Nat) (l : List CheckRun)
    (hnd : (l.map CheckRun.name).Nodup) :
    EventDetector.detectCheckChanges now l l = [] := by
  unfold EventDetector.detectCheckChanges
  apply flatMap_eq_nil_of_forall
  intro c hc
  rw [find_name_self hnd hc]
  cases hcc : c.conclusion with
  | none => rfl
  | some concl => simp [hcc]

/-- Diffing a review list against itself emits no events: every id in
`current` occurs in `previous`. -/
theorem detectReviewChanges_self (now : Nat) (l : List Review) :
    EventDetector.detectReviewChanges now l l = [] := by
  unfold EventDetector.detectReviewChanges
  have h : l.filter (fun r => !(l.any fun p => p.id == r.id)) = [] := by
    apply filter_eq_nil_of_forall
    intro r hr
    simp only [Bool.not_eq_false', List.any_eq_true]
    exact ⟨r, hr, by simp⟩
  simp [h]

/-- Diffing a comment list against itself emits no events. -/
theorem detectCommentChanges_self (now : Nat) (l : List Comment) :
    EventDetector.detectCommentChanges now l l = [] := by
  unfold EventDetector.detectCommentChanges
  have h : l.filter (fun c => !(l.any fun p => p.id == c.id)) = [] := by
    apply filter_eq_nil_of_forall
    intro c hc
    simp only [Bool.not_eq_false', List.any_eq_true]
    exact ⟨c, hc, by simp⟩
  simp [h]

/-- Comparing a snapshot's status fields with themselves triggers no
transition event: every transition requires a strict change. -/
theorem detectStatusChanges_self (now : Nat) (S : PRSnapshot) :
    EventDetector.detectStatusChanges now S S = [] := by
  unfold EventDetector.detectStatusChanges
  cases hd : S.isDraft <;>
    cases hm : S.mergeable == Mergeable.CONFLICTING <;>
      cases hs1 : S.state == PRState.MERGED <;>
        cases hs2 : S.state == PRState.CLOSED <;>
          simp [hd, hm, hs1, hs2, bne]

/-- C9: no-op diff idempotence.  Diffing a snapshot against itself yields
no events at all — in particular zero check, review and comment events —
provided the snapshot satisfies the data-model invariant that check names
are unique within one snapshot. -/
theorem detectChanges_self (now : Nat) (S : PRSnapshot)
    (hnd : (S.checks.map CheckRun.name).Nodup) :
    EventDetector.detectChanges now (some S) S = [] := by
  have h : EventDetector.detectChanges now (some S) S =
      EventDetector.detectCheckChanges now S.checks S.checks
        ++ EventDetector.detectReviewChanges now S.reviews S.reviews
        ++ EventDetector.detectCommentChanges now S.comments S.comments
        ++ EventDetector.detectStatusChanges now S S := rfl
  rw [h, detectCheckChanges_self now S.checks hnd, detectReviewChanges_self,
    detectCommentChanges_self, detectStatusChanges_self]
  rfl

/-- A populated snapshot with two distinctly named checks, a review and a
comment, used to witness the no-op diff theorem. -/
def populatedSnapshot : PRSnapshot :=
  { number := 42, title := "feature", state := PRState.OPEN, isDraft := false
    mergeable := Mergeable.MERGEABLE
    checks := [{ name := "build", status := CheckStatus.success
                 conclusion := some CheckStatus.success },
               { name := "test", status := CheckStatus.pending, conclusion := none }]
    reviews := [{ id := "r1", author := "alice", state := ReviewState.APPROVED }]
    comments := [{ id := "c1", author := "bob", body := "lgtm" }] }

/-- Witness for C9 at a concrete populated snapshot. -/
theorem detectChanges_self_witness :
    (populatedSnapshot.checks.map CheckRun.name).Nodup ∧
    EventDetector.detectChanges 5 (some populatedSnapshot) populatedSnapshot = [] :=
  ⟨by decide, detectChanges_self 5 populatedSnapshot (by decide)⟩

/-! ## Theorems: multi-entity coordinator (C2, C5, C10) -/

/-- C2: fault isolation.  In a two-entity cycle where A's fetch throws and
B's succeeds, the cycle leaves A's state (snapshot, event log, completion
flag) unchanged, stores B's new snapshot, appends B's diff events to B's
log, returns exactly B's new events (when there are any, and nothing
otherwise), does not raise, and `areAllComplete` is false afterwards. -/
theorem fetchAll_fault_isolation (now : Nat)
    (fetch : Nat → Except String PRSnapshot) (A B : MultiPRState) (eA : String)
    (snapB : PRSnapshot) (hA : A.isComplete = false) (hB : B.isComplete = false)
    (hfA : fetch A.prNumber = Except.error eA)
    (hfB : fetch B.prNumber = Except.ok snapB) :
    MultiPRWatcher.fetchAll now fetch [A, B] =
      ([A,
        (if MultiPRWatcher.isComplete snapB then
          { B with snapshot := some snapB
                   events := B.events
                     ++ EventDetector.detectChanges now B.snapshot snapB
                   isComplete := true }
         else
          { B with snapshot := some snapB
                   events := B.events
                     ++ EventDetector.detectChanges now B.snapshot snapB })],
       if (EventDetector.detectChanges now B.snapshot snapB).length > 0 then
         [(B.prNumber, EventDetector.detectChanges now B.snapshot snapB)]
       else []) ∧
    MultiPRWatcher.areAllComplete (MultiPRWatcher.fetchAll now fetch [A, B]).1
      = false := by
  have hstepA : MultiPRWatcher.fetchAllStep now fetch A = (A, none) := by
    simp [MultiPRWatcher.fetchAllStep, hA, hfA]
  have hstepB : MultiPRWatcher.fetchAllStep now fetch B =
      ((if MultiPRWatcher.isComplete snapB then
          { B with snapshot := some snapB
                   events := B.events
                     ++ EventDetector.detectChanges now B.snapshot snapB
                   isComplete := true }
        else
          { B with snapshot := some snapB
                   events := B.events
                     ++ EventDetector.detectChanges now B.snapshot snapB }),
       if (EventDetector.detectChanges now B.snapshot snapB).length > 0 then
         some (B.prNumber, EventDetector.detectChanges now B.snapshot snapB)
       else none) := by
    simp only [MultiPRWatcher.fetchAllStep, hB, hfB, Bool.false_eq_true, if_false]
  have hmain : MultiPRWatcher.fetchAll now fetch [A, B] =
      ([(MultiPRWatcher.fetchAllStep now fetch A).1,
        (MultiPRWatcher.fetchAllStep now fetch B).1],
       match (MultiPRWatcher.fetchAllStep now fetch A).2 with
       | some p => p ::
           (match (MultiPRWatcher.fetchAllStep now fetch B).2 with
            | some q => [q]
            | none => [])
       | none =>
           (match (MultiPRWatcher.fetchAllStep now fetch B).2 with
            | some q => [q]
            | none => [])) := rfl
  constructor
  · rw [hmain, hstepA, hstepB]
    by_cases he : (EventDetector.detectChanges now B.snapshot snapB).length > 0 <;>
      simp [he]
  · rw [hmain, hstepA]
    simp [MultiPRWatcher.areAllComplete, hA]

/-- A snapshot used as the successful fetch result in the fault-isolation
witness. -/
def isolationSnapshot : PRSnapshot :=
  { number := 2, title := "wip", state := PRState.OPEN, isDraft := false
    mergeable := Mergeable.UNKNOWN, checks := [], reviews := [], comments := [] }

/-- The fetch oracle of the fault-isolation witness: PR 1 throws, PR 2
succeeds. -/
def isolationFetch : Nat → Except String PRSnapshot := fun n =>
  if n == 2 then Except.ok isolationSnapshot else Except.error "connection reset"

/-- Witness for C2 at concrete states and a concrete fetch oracle. -/
theorem fetchAll_fault_isolation_witness :
    isolationFetch 1 = Except.error "connection reset" ∧
    isolationFetch 2 = Except.ok isolationSnapshot ∧
    MultiPRWatcher.areAllComplete
      (MultiPRWatcher.fetchAll 0 isolationFetch
        [{ prNumber := 1, snapshot := none, events := [], isComplete := false },
         { prNumber := 2, snapshot := none, events := [], isComplete := false }]).1
      = false :=
  ⟨rfl, rfl,
   (fetchAll_fault_isolation 0 isolationFetch
      { prNumber := 1, snapshot := none, events := [], isComplete := false }
      { prNumber := 2, snapshot := none, events := [], isComplete := false }
      "connection reset" isolationSnapshot rfl rfl rfl rfl).2⟩

/-- One coordinator step never shrinks a state's event log and never
clears its completion flag. -/
theorem fetchAllStep_mono (now : Nat) (fetch : Nat → Except String PRSnapshot)
    (s : MultiPRState) :
    s.events <+: (MultiPRWatcher.fetchAllStep now fetch s).1.events ∧
    (s.isComplete = true → (MultiPRWatcher.fetchAllStep now fetch s).1.isComplete
      = true) := by
  unfold MultiPRWatcher.fetchAllStep
  by_cases hc : s.isComplete = true
  · simp [hc]
  · rw [Bool.not_eq_true] at hc
    cases hf : fetch s.prNumber with
    | error e => simp [hc, hf]
    | ok snap =>
      by_cases hcs : MultiPRWatcher.isComplete snap = true <;>
        simp [hc, hf, hcs, List.prefix_append]

/-- C5: coordinator state invariants.  Whatever each per-identifier fetch
returns or throws, after one `fetchAll` cycle every state's event log
before the call is a prefix of its log after the call, and every state
whose completion flag was true still has it true. -/
theorem fetchAll_invariants (now : Nat) (fetch : Nat → Except String PRSnapshot)
    (states : List MultiPRState) :
    List.Forall₂ (fun s s' => s.events <+: s'.events ∧
      (s.isComplete = true → s'.isComplete = true))
      states (MultiPRWatcher.fetchAll now fetch states).1 := by
  induction states with
  | nil => exact List.Forall₂.nil
  | cons s rest ih => exact List.Forall₂.cons (fetchAllStep_mono now fetch s) ih

/-- The map entry of one coordinator step for a not-complete state with a
successful fetch: present exactly when the diff is non-empty. -/
theorem fetchAllStep_ok_snd (now : Nat) (fetch : Nat → Except String PRSnapshot)
    (s : MultiPRState) (snap : PRSnapshot) (hc : s.isComplete = false)
    (hf : fetch s.prNumber = Except.ok snap) :
    (MultiPRWatcher.fetchAllStep now fetch s).2 =
      (if (EventDetector.detectChanges now s.snapshot snap).length > 0 then
        some (s.prNumber, EventDetector.detectChanges now s.snapshot snap)
       else none) := by
  simp [MultiPRWatcher.fetchAllStep, hc, hf]

/-- Characterization of the map entry produced by one coordinator step:
there is an entry exactly for a not-yet-complete state whose fetch
succeeded and whose diff was non-empty. -/
theorem fetchAllStep_entry (now : Nat) (fetch : Nat → Except String PRSnapshot)
    (s : MultiPRState) (n : Nat) (evs : List PREvent) :
    (MultiPRWatcher.fetchAllStep now fetch s).2 = some (n, evs) ↔
      (s.prNumber = n ∧ s.isComplete = false ∧
        ∃ snap, fetch s.prNumber = Except.ok snap ∧
          evs = EventDetector.detectChanges now s.snapshot snap ∧ evs ≠ []) := by
  by_cases hc : s.isComplete = true
  · simp [MultiPRWatcher.fetchAllStep, hc]
  · rw [Bool.not_eq_true] at hc
    cases hf : fetch s.prNumber with
    | error e =>
      have h2 : (MultiPRWatcher.fetchAllStep now fetch s).2 = none := by
        simp [MultiPRWatcher.fetchAllStep, hc, hf]
      rw [h2]
      simp [hc, hf]
    | ok snap =>
      rw [fetchAllStep_ok_snd now fetch s snap hc hf]
      by_cases he : (EventDetector.detectChanges now s.snapshot snap).length > 0
      · rw [if_pos he]
        constructor
        · intro hsome
          injection hsome with hpair
          injection hpair with hn hevs
          subst hn
          subst hevs
          exact ⟨rfl, hc, snap, rfl, rfl, List.length_pos.mp he⟩
        · rintro ⟨rfl, -, snap2, hsnap2, rfl, hne⟩
          injection hsnap2 with hsn
          subst hsn
          rfl
      · rw [if_neg he]
        constructor
        · intro hsome
          exact Option.noConfusion hsome
        · rintro ⟨rfl, -, snap2, hsnap2, rfl, hne⟩
          injection hsnap2 with hsn
          subst hsn
          exact absurd (List.eq_nil_of_length_eq_zero (by omega)) hne

/-- One coordinator step for a not-complete state with a successful fetch
replaces the stored snapshot unconditionally and sets the completion flag
exactly to the completion test of the new snapshot. -/
theorem fetchAllStep_replace (now : Nat) (fetch : Nat → Except String PRSnapshot)
    (s : MultiPRState) (hc : s.isComplete = false) (snap : PRSnapshot)
    (hf : fetch s.prNumber = Except.ok snap) :
    (MultiPRWatcher.fetchAllStep now fetch s).1.snapshot = some snap ∧
    (MultiPRWatcher.fetchAllStep now fetch s).1.isComplete
      = MultiPRWatcher.isComplete snap := by
  by_cases hcs : MultiPRWatcher.isComplete snap = true <;>
    simp [MultiPRWatcher.fetchAllStep, hc, hf, hcs]

/-- The second component of `fetchAll` is the orderly collection of the
step entries. -/
theorem fetchAll_snd_mem (now : Nat) (fetch : Nat → Except String PRSnapshot)
    (states : List MultiPRState) (p : Nat × List PREvent) :
    p ∈ (MultiPRWatcher.fetchAll now fetch states).2 ↔
      ∃ s ∈ states, (MultiPRWatcher.fetchAllStep now fetch s).2 = some p := by
  induction states with
  | nil => simp [MultiPRWatcher.fetchAll]
  | cons s rest ih =>
    have hcons : (MultiPRWatcher.fetchAll now fetch (s :: rest)).2 =
        (match (MultiPRWatcher.fetchAllStep now fetch s).2 with
         | some q => q :: (MultiPRWatcher.fetchAll now fetch rest).2
         | none => (MultiPRWatcher.fetchAll now fetch rest).2) := rfl
    rw [hcons]
    cases hstep : (MultiPRWatcher.fetchAllStep now fetch s).2 with
    | none =>
      simp only [List.mem_cons]
      rw [ih]
      constructor
      · rintro ⟨t, ht, hts⟩
        exact ⟨t, Or.inr ht, hts⟩
      · rintro ⟨t, rfl | htr, hts⟩
        · rw [hstep] at hts
          exact Option.noConfusion hts
        · exact ⟨t, htr, hts⟩
    | some q =>
      simp only [List.mem_cons]
      constructor
      · rintro (rfl | hmem)
        · exact ⟨s, Or.inl rfl, hstep⟩
        · obtain ⟨t, ht, hts⟩ := ih.mp hmem
          exact ⟨t, Or.inr ht, hts⟩
      · rintro ⟨t, rfl | htr, hts⟩
        · left
          rw [hstep] at hts
          injection hts with h
          exact h.symm
        · right
          exact ih.mpr ⟨t, htr, hts⟩

/-- C10: zero-event omission in the returned map.  A pair `(n, evs)` is in
the map returned by a `fetchAll` cycle iff some watched state has that
identifier, was not already complete, its fetch succeeded, and the diff
against its stored snapshot is exactly `evs` and non-empty; and every
not-complete state whose fetch succeeded — including one whose diff was
empty and therefore appears nowhere in the map — still has its stored
snapshot replaced by the fetched one and its completion flag set to the
completion test of that snapshot. -/
theorem fetchAll_map_characterization (now : Nat)
    (fetch : Nat → Except String PRSnapshot) (states : List MultiPRState) :
    (∀ n evs, ((n, evs) ∈ (MultiPRWatcher.fetchAll now fetch states).2 ↔
      ∃ s ∈ states, s.prNumber = n ∧ s.isComplete = false ∧
        ∃ snap, fetch s.prNumber = Except.ok snap ∧
          evs = EventDetector.detectChanges now s.snapshot snap ∧ evs ≠ [])) ∧
    List.Forall₂ (fun s s' => s.isComplete = false →
        ∀ snap, fetch s.prNumber = Except.ok snap →
          s'.snapshot = some snap ∧ s'.isComplete = MultiPRWatcher.isComplete snap)
      states (MultiPRWatcher.fetchAll now fetch states).1 := by
  constructor
  · intro n evs
    rw [fetchAll_snd_mem]
    constructor
    · rintro ⟨s, hs, hstep⟩
      exact ⟨s, hs, (fetchAllStep_entry now fetch s n evs).mp hstep⟩
    · rintro ⟨s, hs, hchar⟩
      exact ⟨s, hs, (fetchAllStep_entry now fetch s n evs).mpr hchar⟩
  · induction states with
    | nil => exact List.Forall₂.nil
    | cons s rest ih =>
      exact List.Forall₂.cons
        (fun hc snap hf => fetchAllStep_replace now fetch s hc snap hf) ih

/-- Witness for C5 at a concrete two-entity coordinator cycle. -/
theorem fetchAll_invariants_witness :
    List.Forall₂ (fun (s s' : MultiPRState) => s.events <+: s'.events ∧
      (s.isComplete = true → s'.isComplete = true))
      ([{ prNumber := 1, snapshot := none, events := [], isComplete := false },
        { prNumber := 2, snapshot := none, events := [], isComplete := true }] :
        List MultiPRState)
      (MultiPRWatcher.fetchAll 0 isolationFetch
        [{ prNumber := 1, snapshot := none, events := [], isComplete := false },
         { prNumber := 2, snapshot := none, events := [], isComplete := true }]).1 :=
  fetchAll_invariants 0 isolationFetch
    [{ prNumber := 1, snapshot := none, events := [], isComplete := false },
     { prNumber := 2, snapshot := none, events := [], isComplete := true }]

/-- Witness for C10 at a concrete two-entity coordinator cycle. -/
theorem fetchAll_map_characterization_witness :
    List.Forall₂ (fun (s s' : MultiPRState) => s.isComplete = false →
        ∀ snap, isolationFetch s.prNumber = Except.ok snap →
          s'.snapshot = some snap ∧ s'.isComplete = MultiPRWatcher.isComplete snap)
      ([{ prNumber := 1, snapshot := none, events := [], isComplete := false },
        { prNumber := 2, snapshot := none, events := [], isComplete := false }] :
        List MultiPRState)
      (MultiPRWatcher.fetchAll 0 isolationFetch
        [{ prNumber := 1, snapshot := none, events := [], isComplete := false },
         { prNumber := 2, snapshot := none, events := [], isComplete := false }]).1 :=
  (fetchAll_map_characterization 0 isolationFetch
    [{ prNumber := 1, snapshot := none, events := [], isComplete := false },
     { prNumber := 2, snapshot := none, events := [], isComplete := false }]).2

/-! ## Shared string/JS helpers for the entry-point embedding -/

/-- JS `String.prototype.includes`: the substring occurs iff `splitOn`
produces more than one part (all uses have a non-empty needle). -/
def strIncludes (s sub : String) : Bool :=
  decide ((s.splitOn sub).length > 1)

/-- Abstract rendering of the locale-dependent JS
`Date.prototype.toLocaleTimeString`; only used to build display text. -/
def toLocaleTimeString (t : Nat) : String :=
  toString t

/-- JS `parseInt(s, 10)` as used on PR identifiers: the longest leading
digit run, `none` for NaN (no leading digit).  Signs do not occur in the
identifiers this models. -/
def jsParseInt (s : String) : Option Nat :=
  let ds := s.data.takeWhile Char.isDigit
  if ds.isEmpty then none else (String.mk ds).toNat?

/-- JS `x || dflt` on an optional string option (both `undefined` and the
empty string fall back to the default). -/
def jsOrStr (s : Option String) (dflt : String) : String :=
  match s with
  | some v => if v == "" then dflt else v
  | none => dflt

/-- `parseInterval` from `index.ts`: a digit run optionally followed by
`s` or `m` (the regex `^(\d+)(s|m)?$`); anything else is 30 seconds. -/
def parseInterval (interval : String) : Nat :=
  let ds := interval.data.takeWhile Char.isDigit
  let rest := interval.data.dropWhile Char.isDigit
  match (String.mk ds).toNat? with
  | none => 30
  | some value =>
    if rest = [] ∨ rest = ['s'] then value
    else if rest = ['m'] then value * 60
    else 30

/-- `filterEvents` from `index.ts`. -/
def filterEvents (events : List PREvent) (filter : NotifyFilter) : List PREvent :=
  match filter with
  | NotifyFilter.all => events
  | NotifyFilter.checks => events.filter fun e => e.type == PREventType.check
  | NotifyFilter.reviews => events.filter fun e => e.type == PREventType.review
  | NotifyFilter.comments => events.filter fun e => e.type == PREventType.comment

/-- `formatEvent` from `index.ts`. -/
def formatEvent (event : PREvent) : String :=
  "[" ++ toLocaleTimeString event.timestamp ++ "] " ++ event.message

/-- The shell single-quote character, kept out of string literals. -/
def shellQuote : String :=
  String.mk [Char.ofNat 39]

/-! ## Notifier (`notifier.ts`)

Every notification is best effort: the `execSync` boundary is an oracle
and its failure is swallowed inside the notifier, so no notifier method
can throw.  The methods return `Unit`; terminal-bell and console writes
have no observable effect in this model. -/

/-- `NotificationOptions` from `notifier.ts`. -/
structure NotificationOptions where
  desktop : Bool
  terminal : Bool
deriving Repr, DecidableEq

/-- The emoji character class stripped from messages before display
(`/[🔄✅❌⚠️💬🎯🔧👀🎉🚫]/g`). -/
def emojiClass : List Char :=
  "🔄✅❌⚠️💬🎯🔧👀🎉🚫".data

/-- Remove every character of the emoji class. -/
def stripEmoji (s : String) : String :=
  String.mk (s.data.filter fun c => !(emojiClass.contains c))

/-- `Notifier.escapeForAppleScript`. -/
def Notifier.escapeForAppleScript (str : String) : String :=
  (str.replace "\"" "\\\"").replace "\\" "\\\\"

/-- `Notifier.getSoundForSeverity`. -/
def Notifier.getSoundForSeverity : Severity → String
  | Severity.success => "Glass"
  | Severity.error => "Basso"
  | Severity.warning => "Ping"
  | Severity.info => "default"

/-- `Notifier.sendDesktopNotification`: builds the osascript command and
swallows any `execSync` failure. -/
def Notifier.sendDesktopNotification (execSyncO : String → Except String String)
    (event : PREvent) (prNumber : Nat) : Unit :=
  let title := "PR #" ++ toString prNumber
  let message := (stripEmoji event.message).trim
  let sound := Notifier.getSoundForSeverity event.severity
  let script := "display notification \"" ++ Notifier.escapeForAppleScript message
    ++ "\" with title \"" ++ title ++ "\" sound name \"" ++ sound ++ "\""
  match execSyncO ("osascript -e " ++ shellQuote ++ script ++ shellQuote) with
  | Except.ok _ => ()
  | Except.error _ => ()

/-- `Notifier.sendTerminalBell`: a beep for success/error severities; no
observable effect here. -/
def Notifier.sendTerminalBell (event : PREvent) : Unit :=
  if event.severity == Severity.success || event.severity == Severity.error then ()
  else ()

/-- `Notifier.notify`. -/
def Notifier.notify (o : NotificationOptions)
    (execSyncO : String → Except String String) (event : PREvent) (prNumber : Nat) :
    Unit :=
  let _ := if o.desktop then Notifier.sendDesktopNotification execSyncO event prNumber
    else ()
  let _ := if o.terminal then Notifier.sendTerminalBell event else ()
  ()

/-- `Notifier.notifySummary`. -/
def Notifier.notifySummary (o : NotificationOptions)
    (execSyncO : String → Except String String) (summary : String) (prNumber : Nat) :
    Unit :=
  let _ := if o.desktop then
      let script := "display notification \""
        ++ Notifier.escapeForAppleScript summary ++ "\" with title \"PR #"
        ++ toString prNumber ++ " Complete\" sound name \"Glass\""
      match execSyncO ("osascript -e " ++ shellQuote ++ script ++ shellQuote) with
      | Except.ok _ => ()
      | Except.error _ => ()
    else ()
  ()

/-- `Notifier.notifyError` (always sent when desktop is enabled; failures
swallowed). -/
def Notifier.notifyError (o : NotificationOptions)
    (execSyncO : String → Except String String) (title message : String)
    (prNumber : Nat) : Unit :=
  let _ := if o.desktop then
      let cleanMessage := (stripEmoji message).trim
      let script := "display notification \""
        ++ Notifier.escapeForAppleScript cleanMessage ++ "\" with title \"⚠️ "
        ++ title ++ "\" sound name \"Basso\""
      match execSyncO ("osascript -e " ++ shellQuote ++ script ++ shellQuote) with
      | Except.ok _ => ()
      | Except.error _ => ()
    else ()
  let _ := prNumber
  ()

/-! ## Summary reporter (`summary-reporter.ts`)

The reporter's mutable fields become a record threaded through the loop;
`Map` insertion-order semantics are modelled by an association list whose
`set` updates in place or appends. -/

/-- JS `Map.set` on a string-keyed association list. -/
def jsMapSet (m : List (String × Nat)) (k : String) (v : Nat) :
    List (String × Nat) :=
  if m.any (fun p => p.1 == k) then
    m.map fun p => if p.1 == k then (k, v) else p
  else m ++ [(k, v)]

/-- JS `Map.get` on a string-keyed association list. -/
def jsMapGet (m : List (String × Nat)) (k : String) : Option Nat :=
  (m.find? fun p => p.1 == k).map fun p => p.2

/-- JS `array.filter((v, i, a) => a.indexOf(v) === i)`: keep the first
occurrence of each element. -/
def jsUniqueAux : List String → List String → List String
  | [], _ => []
  | x :: xs, seen =>
    if seen.contains x then jsUniqueAux xs seen
    else x :: jsUniqueAux xs (x :: seen)

/-- Deduplication keeping first occurrences. -/
def jsUnique (l : List String) : List String :=
  jsUniqueAux l []

/-- The mutable state of a `SummaryReporter` instance. -/
structure SummaryReporter where
  startTime : Nat
  events : List PREvent
  checkStartTimes : List (String × Nat)
  checkDurations : List (String × Nat)
deriving Repr, DecidableEq

/-- The reporter constructor: records the construction time. -/
def SummaryReporter.new (now : Nat) : SummaryReporter :=
  { startTime := now, events := [], checkStartTimes := [], checkDurations := [] }

/-- `SummaryReporter.recordEvent`: append the event and track check
timings by matching on the message text (the source's string-pattern
classification). -/
def SummaryReporter.recordEvent (r : SummaryReporter) (now : Nat) (event : PREvent) :
    SummaryReporter :=
  let r := { r with events := r.events ++ [event] }
  match event.type, event.details with
  | PREventType.check, some (EventDetail.check c) =>
    let checkName := c.name
    let r := if strIncludes event.message "started" then
        { r with checkStartTimes := jsMapSet r.checkStartTimes checkName now }
      else r
    if strIncludes event.message "success" || strIncludes event.message "failure" then
      match jsMapGet r.checkStartTimes checkName with
      | some startTime =>
        { r with checkDurations :=
            jsMapSet r.checkDurations checkName (now - startTime) }
      | none => r
    else r
  | _, _ => r

/-- `SummaryStats` from `summary-reporter.ts`. -/
structure SummaryStats where
  duration : Nat
  totalEvents : Nat
  checksCompleted : Nat
  checksSucceeded : Nat
  checksFailed : Nat
  reviewsReceived : Nat
  commentsAdded : Nat
  finalState : String
  reviewers : List String
  averageCheckTime : Option Nat
  longestCheck : Option (String × Nat)
deriving Repr, DecidableEq

/-- `SummaryReporter.formatFinalState`. -/
def SummaryReporter.formatFinalState (snapshot : PRSnapshot) : String :=
  if snapshot.state == PRState.MERGED then "🎉 Merged"
  else if snapshot.state == PRState.CLOSED then "🚫 Closed"
  else
    let allChecksPassed := snapshot.checks.all fun c =>
      c.conclusion == some CheckStatus.success
        || c.conclusion == some CheckStatus.skipped
        || c.conclusion == some CheckStatus.neutral
    let hasApproval := snapshot.reviews.any fun r => r.state == ReviewState.APPROVED
    if allChecksPassed && hasApproval then "✅ Ready to merge"
    else if allChecksPassed then "✅ All checks passed"
    else if hasApproval then "👍 Approved (checks pending)"
    else "⏳ In progress"

/-- `SummaryReporter.formatDuration`. -/
def SummaryReporter.formatDuration (ms : Nat) : String :=
  let seconds := ms / 1000
  let minutes := seconds / 60
  let hours := minutes / 60
  if hours > 0 then toString hours ++ "h " ++ toString (minutes % 60) ++ "m"
  else if minutes > 0 then toString minutes ++ "m " ++ toString (seconds % 60) ++ "s"
  else toString seconds ++ "s"

/-- `SummaryReporter.calculateStats`.  The average uses natural division
(the source's float average is only displayed, never branched on beyond
truthiness). -/
def SummaryReporter.calculateStats (r : SummaryReporter) (now : Nat)
    (finalSnapshot : PRSnapshot) : SummaryStats :=
  let duration := now - r.startTime
  let checkEvents := r.events.filter fun e => e.type == PREventType.check
  let reviewEvents := r.events.filter fun e => e.type == PREventType.review
  let commentEvents := r.events.filter fun e => e.type == PREventType.comment
  let checksSucceeded := (checkEvents.filter fun e =>
    strIncludes e.message "success").length
  let checksFailed := (checkEvents.filter fun e =>
    strIncludes e.message "failure").length
  let durations := r.checkDurations.map fun p => p.2
  let averageCheckTime := if r.checkDurations.length > 0 then
      some ((durations.foldl (fun a b => a + b) 0) / durations.length)
    else none
  let maxPair := r.checkDurations.foldl
    (fun acc p => if p.2 > acc.2 then (p.1, p.2) else acc) ("", 0)
  let longestCheck := if maxPair.1 != "" then some maxPair else none
  { duration := duration
    totalEvents := r.events.length
    checksCompleted := finalSnapshot.checks.length
    checksSucceeded := checksSucceeded
    checksFailed := checksFailed
    reviewsReceived := reviewEvents.length
    commentsAdded := commentEvents.length
    finalState := SummaryReporter.formatFinalState finalSnapshot
    reviewers := jsUnique (finalSnapshot.reviews.map fun rv => rv.author)
    averageCheckTime := averageCheckTime
    longestCheck := longestCheck }

/-- The banner line of the summary reports. -/
def summaryBanner : String :=
  "═══════════════════════════════════════════"

/-- `SummaryReporter.generateSummary`.  `stats.averageCheckTime` is truthy
only when present and non-zero, matching the JS number truthiness. -/
def SummaryReporter.generateSummary (r : SummaryReporter) (now : Nat)
    (finalSnapshot : PRSnapshot) : String :=
  let stats := r.calculateStats now finalSnapshot
  let lines : List String :=
    ["", summaryBanner, "📊 PR #" ++ toString finalSnapshot.number ++ " Summary",
     summaryBanner, "",
     "⏱️  Duration: " ++ SummaryReporter.formatDuration stats.duration,
     "📅 Started: " ++ toLocaleTimeString r.startTime,
     "🏁 Finished: " ++ toLocaleTimeString now, "",
     "🔍 CI/CD Checks:",
     "   ✅ Succeeded: " ++ toString stats.checksSucceeded]
    ++ (if stats.checksFailed > 0 then
          ["   ❌ Failed: " ++ toString stats.checksFailed] else [])
    ++ ["   📊 Total: " ++ toString stats.checksCompleted]
    ++ (match stats.averageCheckTime with
        | some a => if a != 0 then
            ["   ⚡ Average time: " ++ SummaryReporter.formatDuration a] else []
        | none => [])
    ++ (match stats.longestCheck with
        | some p => ["   🐢 Longest: " ++ p.1 ++ " ("
            ++ SummaryReporter.formatDuration p.2 ++ ")"]
        | none => [])
    ++ [""]
    ++ (if stats.reviewsReceived > 0 then
          ["👥 Reviews:",
           "   📝 Reviews received: " ++ toString stats.reviewsReceived]
          ++ (if stats.reviewers.length > 0 then
                ["   👤 Reviewers: " ++ String.intercalate ", " stats.reviewers]
              else [])
          ++ [""]
        else [])
    ++ (if stats.commentsAdded > 0 then
          ["💬 Comments: " ++ toString stats.commentsAdded ++ " new comments", ""]
        else [])
    ++ ["🎯 Final State: " ++ stats.finalState,
        "📌 Total Events: " ++ toString stats.totalEvents, "", summaryBanner]
  String.intercalate "\n" lines

/-- `SummaryReporter.generateCompactSummary`. -/
def SummaryReporter.generateCompactSummary (r : SummaryReporter) (now : Nat)
    (finalSnapshot : PRSnapshot) : String :=
  let stats := r.calculateStats now finalSnapshot
  let parts : List String :=
    ["Duration: " ++ SummaryReporter.formatDuration stats.duration]
    ++ (if stats.checksSucceeded > 0 then
          ["✅ " ++ toString stats.checksSucceeded ++ " checks passed"] else [])
    ++ (if stats.checksFailed > 0 then
          ["❌ " ++ toString stats.checksFailed ++ " failed"] else [])
    ++ (if stats.reviewsReceived > 0 then
          ["👥 " ++ toString stats.reviewsReceived ++ " reviews"] else [])
  String.intercalate " • " parts

/-! ## Analyzer (`pr-analyzer.ts`)

The analyzer's `checkHistory` map is a parameter (the single-PR loop never
records durations, so it is called with an empty history); `Date.now()` is
the `now` parameter. -/

/-- The insight severity of `pr-analyzer.ts`. -/
inductive InsightType
  | warning
  | info
  | tip
deriving Repr, DecidableEq

/-- `AnalysisInsight` from `pr-analyzer.ts`. -/
structure AnalysisInsight where
  type : InsightType
  message : String
deriving Repr, DecidableEq

/-- `SLOW_CHECK_THRESHOLD`: 10 minutes in milliseconds. -/
def PRAnalyzer.SLOW_CHECK_THRESHOLD : Nat := 10 * 60 * 1000

/-- `VERY_SLOW_THRESHOLD`: 20 minutes in milliseconds. -/
def PRAnalyzer.VERY_SLOW_THRESHOLD : Nat := 20 * 60 * 1000

/-- `PRAnalyzer.formatDuration`. -/
def PRAnalyzer.formatDuration (ms : Nat) : String :=
  let minutes := ms / 60000
  if minutes ≥ 60 then
    toString (minutes / 60) ++ "h " ++ toString (minutes % 60) ++ "m"
  else toString minutes ++ "m"

/-- `PRAnalyzer.analyzeCheckDurations`.  The historical comparison
`duration > avg * 1.5` is taken in exact arithmetic
(`2 * duration * n > 3 * sum`); the displayed average uses natural
division. -/
def PRAnalyzer.analyzeCheckDurations (history : List (String × List Nat))
    (now : Nat) (snapshot : PRSnapshot) : List AnalysisInsight :=
  snapshot.checks.flatMap fun check =>
    match check.startedAt with
    | none => []
    | some startedAt =>
      if check.status != CheckStatus.pending then []
      else
        let duration := now - startedAt
        let slowInsights : List AnalysisInsight :=
          if duration > PRAnalyzer.VERY_SLOW_THRESHOLD then
            [{ type := InsightType.warning
               message := "⚠️  " ++ check.name ++ " is taking unusually long ("
                 ++ PRAnalyzer.formatDuration duration
                 ++ "). This might indicate an issue." }]
          else if duration > PRAnalyzer.SLOW_CHECK_THRESHOLD then
            [{ type := InsightType.info
               message := "ℹ️  " ++ check.name ++ " is running for "
                 ++ PRAnalyzer.formatDuration duration }]
          else []
        let histInsights : List AnalysisInsight :=
          match history.find? (fun p => p.1 == check.name) with
          | some p =>
            if p.2.length ≥ 3 then
              let total := p.2.foldl (fun a b => a + b) 0
              if 2 * duration * p.2.length > 3 * total then
                [{ type := InsightType.warning
                   message := "⚠️  " ++ check.name ++ " is 50% slower than usual (avg: "
                     ++ PRAnalyzer.formatDuration (total / p.2.length) ++ ")" }]
              else []
            else []
          | none => []
        slowInsights ++ histInsights

/-- `PRAnalyzer.analyzeReviewStatus`. -/
def PRAnalyzer.analyzeReviewStatus (snapshot : PRSnapshot) : List AnalysisInsight :=
  let approvals := (snapshot.reviews.filter fun r =>
    r.state == ReviewState.APPROVED).length
  let changesRequested := (snapshot.reviews.filter fun r =>
    r.state == ReviewState.CHANGES_REQUESTED).length
  let reviewers := snapshot.reviewers.length
  let allChecksPassed := snapshot.checks.all fun c =>
    c.conclusion == some CheckStatus.success
      || c.conclusion == some CheckStatus.skipped
      || c.conclusion == some CheckStatus.neutral
  (if allChecksPassed && decide (reviewers > 0) && (approvals == 0) then
    [{ type := InsightType.tip
       message := "💡 All checks passed! Ready for review by "
         ++ toString reviewers ++ " reviewer(s)." }]
   else [])
  ++ (if decide (approvals > 0) && !allChecksPassed then
    [{ type := InsightType.info
       message := "ℹ️  PR is approved but checks are still running/failing" }]
   else [])
  ++ (if changesRequested > 0 then
    [{ type := InsightType.info
       message := "🔧 " ++ toString changesRequested
         ++ " reviewer(s) requested changes" }]
   else [])

/-- `PRAnalyzer.analyzeMergeReadiness`. -/
def PRAnalyzer.analyzeMergeReadiness (snapshot : PRSnapshot) : List AnalysisInsight :=
  let allChecksPassed := snapshot.checks.all fun c =>
    c.conclusion == some CheckStatus.success
      || c.conclusion == some CheckStatus.skipped
      || c.conclusion == some CheckStatus.neutral
  let hasApproval := snapshot.reviews.any fun r => r.state == ReviewState.APPROVED
  let hasConflicts := snapshot.mergeable == Mergeable.CONFLICTING
  (if allChecksPassed && hasApproval && !hasConflicts && !snapshot.isDraft then
    [{ type := InsightType.info
       message := "✅ PR is ready to merge! All checks passed and approved." }]
   else [])
  ++ (if hasConflicts then
    [{ type := InsightType.warning
       message := "⚠️  Merge conflicts detected. Rebase or merge main branch." }]
   else [])
  ++ (if snapshot.isDraft && allChecksPassed then
    [{ type := InsightType.tip
       message := "💡 All checks passed. Consider marking PR as ready for review." }]
   else [])

/-- `PRAnalyzer.analyze`: the three passes concatenated. -/
def PRAnalyzer.analyze (history : List (String × List Nat)) (now : Nat)
    (snapshot : PRSnapshot) : List AnalysisInsight :=
  PRAnalyzer.analyzeCheckDurations history now snapshot
    ++ PRAnalyzer.analyzeReviewStatus snapshot
    ++ PRAnalyzer.analyzeMergeReadiness snapshot

/-! ## Resolver (`pr-resolver.ts`)

The `gh pr list` search behind `resolveTicketKey` is an out-of-scope
boundary (spec §1/§6): it is an oracle returning the matched PR number,
no match, or a thrown error.  `resolve` and `resolveMultiple` are embedded
from the source. -/

/-- `PRResolver.resolve`: numeric identifiers pass through; otherwise the
ticket search runs and a missing match throws. -/
def PRResolver.resolve (resolveTicketO : String → Except String (Option Nat))
    (identifier : String) : Except String Nat :=
  match jsParseInt identifier with
  | some n => Except.ok n
  | none =>
    match resolveTicketO identifier with
    | Except.error e => Except.error e
    | Except.ok none =>
      Except.error ("Could not find PR for ticket " ++ identifier)
    | Except.ok (some prNumber) => Except.ok prNumber

/-- `PRResolver.resolveMultiple`: resolve in order; the first failure
aborts the whole batch wrapped with the failing identifier. -/
def PRResolver.resolveMultiple (resolveTicketO : String → Except String (Option Nat)) :
    List String → Except String (List Nat)
  | [] => Except.ok []
  | id :: rest =>
    match PRResolver.resolve resolveTicketO id with
    | Except.error e => Except.error ("Failed to resolve " ++ id ++ ": " ++ e)
    | Except.ok n =>
      match PRResolver.resolveMultiple resolveTicketO rest with
      | Except.error e => Except.error e
      | Except.ok ns => Except.ok (n :: ns)

/-- A successful batch resolution returns exactly one PR number per
identifier. -/
theorem resolveMultiple_length (resolveTicketO : String → Except String (Option Nat)) :
    ∀ (ids : List String) (ns : List Nat),
      PRResolver.resolveMultiple resolveTicketO ids = Except.ok ns →
      ns.length = ids.length
  | [], ns, h => by
    simp only [PRResolver.resolveMultiple] at h
    injection h with h
    rw [← h]
    rfl
  | id :: rest, ns, h => by
    simp only [PRResolver.resolveMultiple] at h
    cases h1 : PRResolver.resolve resolveTicketO id with
    | error e => rw [h1] at h; exact Except.noConfusion h
    | ok n =>
      rw [h1] at h
      cases h2 : PRResolver.resolveMultiple resolveTicketO rest with
      | error e => rw [h2] at h; exact Except.noConfusion h
      | ok ns' =>
        rw [h2] at h
        injection h with h
        rw [← h]
        simp [resolveMultiple_length resolveTicketO rest ns' h2]

/-! ## Jira integration (`jira-integration.ts`) -/

/-- The leftmost match of the ticket pattern `([A-Z]+-\d+)`: a maximal run
of ASCII uppercase letters, a dash, at least one digit.  The scanner
advances one character on failure, which matches the JS regex engine here
because the pattern admits no useful backtracking. -/
def JiraIntegration.findTicketKey : List Char → Option String
  | [] => none
  | c :: rest =>
    if c.isUpper then
      let letters := (c :: rest).takeWhile fun x => x.isUpper
      let after := (c :: rest).dropWhile fun x => x.isUpper
      match after with
      | '-' :: ds =>
        let digits := ds.takeWhile Char.isDigit
        if digits.isEmpty then JiraIntegration.findTicketKey rest
        else some (String.mk (letters ++ '-' :: digits))
      | _ => JiraIntegration.findTicketKey rest
    else JiraIntegration.findTicketKey rest

/-- `JiraIntegration.extractTicketKey`: branch name first, then title. -/
def JiraIntegration.extractTicketKey (prTitle : String) (branchName : Option String) :
    Option String :=
  match branchName with
  | some b =>
    match JiraIntegration.findTicketKey b.data with
    | some key => some key
    | none => JiraIntegration.findTicketKey prTitle.data
  | none => JiraIntegration.findTicketKey prTitle.data

/-- `JiraIntegration.getBranchName`: an `execSync` failure is caught and
becomes `null`. -/
def JiraIntegration.getBranchName (execSyncO : String → Except String String)
    (prNumber : Nat) : Option String :=
  match execSyncO ("gh pr view " ++ toString prNumber
      ++ " --json headRefName -q .headRefName") with
  | Except.ok result => some result.trim
  | Except.error _ => none

/-- `JiraActionRequest` from `jira-integration.ts`. -/
structure JiraActionRequest where
  action : String
  ticketKey : String
  targetStatus : String
  prUrl : String
  comment : String
deriving Repr, DecidableEq

/-- `JiraIntegration.transitionToReview`: pure construction of the action
request (the console banner has no observable effect here). -/
def JiraIntegration.transitionToReview (ticketKey prUrl : String) :
    JiraActionRequest :=
  { action := "jira-transition", ticketKey := ticketKey, targetStatus := "Review"
    prUrl := prUrl
    comment := "✅ All CI/CD checks passed!\n\nPR ready for review: " ++ prUrl }

/-- `handleJiraTransition` from `index.ts`, returning the output lines
after its pushes.  The source wraps the body in try/catch; nothing in this
model of the body can throw (`getBranchName` absorbs its own failure), so
the catch branch is unreachable. -/
def handleJiraTransition (execSyncO : String → Except String String)
    (snapshot : PRSnapshot) (prNumber : Nat) (output : List String) : List String :=
  let branchName := JiraIntegration.getBranchName execSyncO prNumber
  match JiraIntegration.extractTicketKey snapshot.title branchName with
  | none => output ++ ["ℹ️  No Jira ticket found in PR title or branch name"]
  | some ticketKey =>
    let prUrl := "https://github.com/leanix/import-export/pull/" ++ toString prNumber
    let _ := JiraIntegration.transitionToReview ticketKey prUrl
    output ++ ["✅ Jira action requested: " ++ ticketKey ++ " → Review"]

/-! ## Watch entry points (`index.ts`)

The oracles collect every external boundary the entry points touch.  The
fetched snapshot per (iteration, attempt), and per (cycle, PR number) in
multi-PR mode, is arbitrary, as is every `execSync` outcome and the clock;
a thrown collaborator error is an `Except.error`. -/

/-- External boundaries of the watch entry points. -/
structure Oracles where
  resolveTicketO : String → Except String (Option Nat)
  fetchO : Nat → Nat → Except String PRSnapshot
  multiFetchO : Nat → Nat → Except String PRSnapshot
  execSyncO : String → Except String String
  timeO : Nat → Nat

/-- `WatchOptions` from `types.ts`. -/
structure WatchOptions where
  prNumber : Nat
  notifyOn : NotifyFilter
  interval : Nat
  untilCond : Option UntilCondition
deriving Repr, DecidableEq

/-- The options record accepted by `execute`. -/
structure ExecOptions where
  notifyOn : Option NotifyFilter := none
  interval : Option String := none
  untilCond : Option UntilCondition := none
  desktop : Option Bool := none
  bell : Option Bool := none
  noJiraTransition : Option Bool := none
deriving Repr, DecidableEq

/-- The options record accepted by `executeMultiPR` (no `until`). -/
structure MultiPROptions where
  notifyOn : Option NotifyFilter := none
  interval : Option String := none
  desktop : Option Bool := none
  bell : Option Bool := none
  noJiraTransition : Option Bool := none
deriving Repr, DecidableEq

/-- `maxIterations` of both watch loops. -/
def watchMaxIterations : Nat := 200

/-- `heartbeatInterval` of the single-PR loop. -/
def watchHeartbeatInterval : Nat := 10

/-- Whether a loop iteration broke out of the `while` or continues. -/
inductive LoopStep (σ : Type)
  | brk : σ → LoopStep σ
  | cont : σ → LoopStep σ

/-- The loop-carried state of the single-PR watch loop. -/
structure WatchLoopState where
  iteration : Nat
  previousSnapshot : Option PRSnapshot
  output : List String
  failures : Nat
  reporter : SummaryReporter
  lastHeartbeat : Nat

/-- The tail of the single-PR loop body after the stop-condition check:
advance the baseline and iteration, auto-stop when quiescent with no new
filtered events, otherwise sleep (no observable effect) and continue. -/
def watchLoopTail (orc : Oracles) (wopts : WatchOptions)
    (nopts : NotificationOptions) (now : Nat) (currentSnapshot : PRSnapshot)
    (filteredEvents : List PREvent) (st : WatchLoopState) :
    LoopStep WatchLoopState :=
  let st := { st with previousSnapshot := some currentSnapshot
                      iteration := st.iteration + 1 }
  if decide (st.iteration > 0) && (filteredEvents.length == 0)
      && shouldAutoStop currentSnapshot then
    let st := { st with output := (st.output
      ++ ["", "ℹ️  No more activity detected. Stopping watch."]) }
    let st := { st with output := (st.output
      ++ [st.reporter.generateSummary now currentSnapshot]) }
    let _ := Notifier.notifySummary nopts orc.execSyncO
      (st.reporter.generateCompactSummary now currentSnapshot) wopts.prNumber
    LoopStep.brk st
  else
    LoopStep.cont st

/-- One body of the single-PR `while` loop (`index.ts` lines 112–224).
The body is a try/catch; in this model the only operation inside the try
that can throw is the retried fetch, and its terminal failure is handled
by the `Except.error` branch below, which renders the source's catch
block (inline error text, error notification, health check). -/
def watchIteration (orc : Oracles) (wopts : WatchOptions)
    (nopts : NotificationOptions) (noJiraTransition : Bool)
    (st : WatchLoopState) : LoopStep WatchLoopState :=
  let now := orc.timeO st.iteration
  let r := RetryHandler.execute RetryHandler.defaultOptions
    (fun attempt => orc.fetchO st.iteration attempt)
    ("Fetching PR #" ++ toString wopts.prNumber) st.failures
  let st := { st with failures := r.failures }
  match r.result with
  | Except.error errorMessage =>
    let st := { st with output := st.output ++ ["⚠️  Error: " ++ errorMessage] }
    let _ := Notifier.notifyError nopts orc.execSyncO "PR Watcher Error"
      ("Failed to monitor PR #" ++ toString wopts.prNumber ++ ": " ++ errorMessage)
      wopts.prNumber
    if RetryHandler.getHealthStatus st.failures == HealthStatus.unhealthy then
      let st := { st with output := (st.output
        ++ ["⚠️  Connection unhealthy after " ++ toString st.failures
            ++ " failures. Stopping watch."]) }
      let _ := Notifier.notifyError nopts orc.execSyncO "PR Watcher Stopped"
        ("Connection unhealthy after " ++ toString st.failures ++ " failures. PR #"
          ++ toString wopts.prNumber) wopts.prNumber
      LoopStep.brk st
    else
      LoopStep.cont st
  | Except.ok currentSnapshot =>
    let events := EventDetector.detectChanges now st.previousSnapshot currentSnapshot
    let filteredEvents := filterEvents events wopts.notifyOn
    let st := { st with
      output := (st.output ++ filteredEvents.map formatEvent)
      reporter := (filteredEvents.foldl
        (fun rep e => rep.recordEvent now e) st.reporter) }
    let _ := filteredEvents.map fun e =>
      Notifier.notify nopts orc.execSyncO e wopts.prNumber
    let st := if (st.iteration % 5 == 0) && decide (st.iteration > 0) then
        { st with output := (st.output
          ++ (PRAnalyzer.analyze [] now currentSnapshot).map
              (fun insight => "   " ++ insight.message)) }
      else st
    let st := if decide (st.iteration > 0)
        && (st.iteration % watchHeartbeatInterval == 0) then
        let elapsedMinutes := (now - st.lastHeartbeat) / 60000
        if elapsedMinutes > 0 then
          { st with
            output := (st.output ++ ["💓 Still watching PR #"
              ++ toString wopts.prNumber ++ " (" ++ toString elapsedMinutes
              ++ "m since last check)"])
            lastHeartbeat := now }
        else st
      else st
    match wopts.untilCond with
    | some u =>
      if shouldStopWatching currentSnapshot (some u) then
        let st := { st with output := (st.output
          ++ ["", "✅ Condition met: " ++ untilToString u]) }
        let st := if (u == UntilCondition.checksPass) && !noJiraTransition then
            { st with output := (handleJiraTransition orc.execSyncO currentSnapshot
                wopts.prNumber st.output) }
          else st
        let st := { st with output := st.output ++ ["Stopping watch."] }
        let st := { st with output := (st.output
          ++ [st.reporter.generateSummary now currentSnapshot]) }
        let _ := Notifier.notifySummary nopts orc.execSyncO
          (st.reporter.generateCompactSummary now currentSnapshot) wopts.prNumber
        LoopStep.brk st
      else
        watchLoopTail orc wopts nopts now currentSnapshot filteredEvents st
    | none =>
      watchLoopTail orc wopts nopts now currentSnapshot filteredEvents st

/-- The single-PR `while` loop, by structural recursion on fuel.  The
fuel budget in `executeSinglePR` strictly exceeds every possible number of
passes (iteration advances on every fetch success and a wholly failed
fetch pushes the failure counter past the unhealthy threshold, breaking),
so the fuel-0 branch never decides the result. -/
def watchLoopGo (orc : Oracles) (wopts : WatchOptions)
    (nopts : NotificationOptions) (noJiraTransition : Bool) :
    Nat → WatchLoopState → WatchLoopState
  | 0, st => st
  | fuel + 1, st =>
    if st.iteration < watchMaxIterations then
      match watchIteration orc wopts nopts noJiraTransition st with
      | LoopStep.brk st' => st'
      | LoopStep.cont st' => watchLoopGo orc wopts nopts noJiraTransition fuel st'
    else st

/-- The single-PR mode of `execute` (the body of its big try).  Nothing
in this body can throw in the model — every fetch failure is absorbed by
the loop's catch — so it is a total function to the report text. -/
def executeSinglePR (orc : Oracles) (wopts : WatchOptions)
    (nopts : NotificationOptions) (noJiraTransition : Bool)
    (output0 : List String) : String :=
  let reporter := SummaryReporter.new (orc.timeO 0)
  let output := output0 ++
    ["🔍 Watching PR #" ++ toString wopts.prNumber,
     "📊 Notify on: " ++ notifyFilterToString wopts.notifyOn,
     "⏱️  Polling interval: " ++ toString wopts.interval ++ "s"]
  let output := output ++ (match wopts.untilCond with
    | some u => ["🎯 Until: " ++ untilToString u]
    | none => [])
  let output := output ++ (if nopts.desktop || nopts.terminal then
      ["🔔 Notifications: " ++ String.intercalate ", "
        ((if nopts.desktop then ["desktop"] else [])
          ++ (if nopts.terminal then ["terminal"] else []))]
    else [])
  let output := output ++ [""]
  let st0 : WatchLoopState :=
    { iteration := 0, previousSnapshot := none, output := output, failures := 0
      reporter := reporter, lastHeartbeat := orc.timeO 0 }
  let stf := watchLoopGo orc wopts nopts noJiraTransition
    (2 * watchMaxIterations + 2) st0
  let outputF := if stf.iteration ≥ watchMaxIterations then
      stf.output ++ ["", "⚠️  Max monitoring duration reached. Stopping watch."]
        ++ (match stf.previousSnapshot with
            | some snap =>
              [stf.reporter.generateSummary (orc.timeO stf.iteration) snap]
            | none => [])
    else stf.output
  String.intercalate "\n" outputF

/-- `MultiPRWatcher.getSummary`: the multi-PR summary block. -/
def MultiPRWatcher.getSummary (states : List MultiPRState) : String :=
  let lines : List String :=
    ["", summaryBanner,
     "📊 Multi-PR Summary (" ++ toString states.length ++ " PRs)", summaryBanner]
    ++ states.flatMap (fun state =>
        match state.snapshot with
        | none => []
        | some snap =>
          let status := if state.isComplete then "✅" else "⏳"
          let checksPassed := (snap.checks.filter fun c =>
            c.conclusion == some CheckStatus.success
              || c.conclusion == some CheckStatus.skipped).length
          [status ++ " PR #" ++ toString state.prNumber ++ ": " ++ snap.title,
           "   Checks: " ++ toString checksPassed ++ "/"
             ++ toString snap.checks.length
             ++ " | Events: " ++ toString state.events.length])
    ++ [summaryBanner]
  String.intercalate "\n" lines

/-- The loop-carried state of the multi-PR watch loop. -/
structure MultiLoopState where
  iteration : Nat
  states : List MultiPRState
  output : List String
  failures : Nat

/-- One body of the multi-PR `while` loop (`index.ts` lines 391–448).
The whole-batch fetch is wrapped in the shared retry executor; since
`fetchAll` absorbs every per-PR failure, the wrapped operation always
succeeds, so the catch branch (translated below for fidelity) is
dynamically dead. -/
def multiIteration (orc : Oracles) (prNumbers : List Nat)
    (notifyOn : NotifyFilter) (nopts : NotificationOptions)
    (st : MultiLoopState) : LoopStep MultiLoopState :=
  let now := orc.timeO st.iteration
  let fetchResult := MultiPRWatcher.fetchAll now (orc.multiFetchO st.iteration)
    st.states
  let r := RetryHandler.execute RetryHandler.defaultOptions
    (fun _ => Except.ok fetchResult) "Fetching all PRs" st.failures
  let st := { st with failures := r.failures }
  match r.result with
  | Except.error errorMessage =>
    let st := { st with output := (st.output ++ ["⚠️  Error: " ++ errorMessage]) }
    let _ := Notifier.notifyError nopts orc.execSyncO "Multi-PR Watcher Error"
      ("Failed to monitor PRs: " ++ errorMessage) (prNumbers.headD 0)
    if RetryHandler.getHealthStatus st.failures == HealthStatus.unhealthy then
      let st := { st with output := (st.output
        ++ ["⚠️  Connection unhealthy. Stopping watch."]) }
      let _ := Notifier.notifyError nopts orc.execSyncO "Multi-PR Watcher Stopped"
        "Connection unhealthy. Monitoring stopped." (prNumbers.headD 0)
      LoopStep.brk st
    else
      LoopStep.cont st
  | Except.ok result =>
    let st := { st with states := result.1 }
    let allEvents := result.2
    let st := { st with output := (st.output ++ allEvents.flatMap (fun entry =>
        (filterEvents entry.2 notifyOn).map (fun (e : PREvent) =>
          formatEvent { e with
            message := "PR #" ++ toString entry.1 ++ ": " ++ e.message }))) }
    let _ := allEvents.map fun entry =>
      (filterEvents entry.2 notifyOn).map fun e =>
        Notifier.notify nopts orc.execSyncO e entry.1
    if MultiPRWatcher.areAllComplete st.states then
      let st := { st with output := (st.output
        ++ ["", "✅ All PRs complete!", MultiPRWatcher.getSummary st.states]) }
      let _ := Notifier.notifySummary nopts orc.execSyncO "All PRs complete!"
        (prNumbers.headD 0)
      LoopStep.brk st
    else
      LoopStep.cont { st with iteration := st.iteration + 1 }

/-- The multi-PR `while` loop, by structural recursion on fuel (see
`watchLoopGo` for the fuel budget). -/
def multiLoopGo (orc : Oracles) (prNumbers : List Nat) (notifyOn : NotifyFilter)
    (nopts : NotificationOptions) : Nat → MultiLoopState → MultiLoopState
  | 0, st => st
  | fuel + 1, st =>
    if st.iteration < watchMaxIterations then
      match multiIteration orc prNumbers notifyOn nopts st with
      | LoopStep.brk st' => st'
      | LoopStep.cont st' => multiLoopGo orc prNumbers notifyOn nopts fuel st'
    else st

/-- `executeMultiPR` from `index.ts`.  The `Except` return type carries
the exceptions the TypeScript function could propagate to its caller;
every loop-body failure is handled inside, so the function in fact always
returns an `ok` report. -/
def executeMultiPR (orc : Oracles) (prNumbers : List Nat)
    (options : MultiPROptions) : Except String String :=
  let nopts : NotificationOptions :=
    { desktop := options.desktop.getD false, terminal := options.bell.getD false }
  let interval := parseInterval (jsOrStr options.interval "30s")
  let notifyOn := options.notifyOn.getD NotifyFilter.all
  let output : List String :=
    ["🔍 Watching " ++ toString prNumbers.length ++ " PRs: #"
       ++ String.intercalate ", #" (prNumbers.map toString),
     "📊 Notify on: " ++ notifyFilterToString notifyOn,
     "⏱️  Polling interval: " ++ toString interval ++ "s"]
  let output := output ++ (if nopts.desktop || nopts.terminal then
      ["🔔 Notifications: " ++ String.intercalate ", "
        ((if nopts.desktop then ["desktop"] else [])
          ++ (if nopts.terminal then ["terminal"] else []))]
    else [])
  let output := output ++ [""]
  let states := MultiPRWatcher.initStates prNumbers
  let st0 : MultiLoopState :=
    { iteration := 0, states := states, output := output, failures := 0 }
  let stf := multiLoopGo orc prNumbers notifyOn nopts
    (2 * watchMaxIterations + 2) st0
  let outputF := if stf.iteration ≥ watchMaxIterations then
      stf.output ++ ["", "⚠️  Max monitoring duration reached.",
        MultiPRWatcher.getSummary stf.states]
    else stf.output
  Except.ok (String.intercalate "\n" outputF)

/-- try/catch on `Except`. -/
def catchE {ε α : Type} (x : Except ε α) (handler : ε → Except ε α) : Except ε α :=
  match x with
  | Except.ok a => Except.ok a
  | Except.error e => handler e

/-- `execute` from `index.ts`, the top-level single/multi entry point.
The batch resolution failure is caught (the source's first try/catch); in
multi mode `executeMultiPR` is awaited outside any try, so its exceptions
would propagate (monadic match); in single mode the big try's body is
`executeSinglePR`, total in this model, with the source's catch rendered
as the `catchE` handler. -/
def execute (orc : Oracles) (prIdentifiers : String) (options : ExecOptions) :
    Except String String :=
  let identifierList := (prIdentifiers.splitOn ",").map (fun id => id.trim)
  match PRResolver.resolveMultiple orc.resolveTicketO identifierList with
  | Except.error e => Except.ok ("❌ Failed to resolve PR identifier(s): " ++ e)
  | Except.ok prNumberList =>
    let hasJiraKeys := identifierList.any fun id => (jsParseInt id).isNone
    -- The source walks both arrays by a shared index; `resolveMultiple`
    -- returns one number per identifier (`resolveMultiple_length`), so the
    -- zip pairs the same elements.
    let output : List String := if hasJiraKeys then
        ["🔍 Resolved:"]
          ++ ((identifierList.zip prNumberList).flatMap fun p =>
              if p.1 != toString p.2 then
                ["   " ++ p.1 ++ " → PR #" ++ toString p.2]
              else [])
          ++ [""]
      else []
    if prNumberList.length > 1 then
      match executeMultiPR orc prNumberList
          { notifyOn := options.notifyOn, interval := options.interval
            desktop := options.desktop, bell := options.bell
            noJiraTransition := options.noJiraTransition } with
      | Except.error e => Except.error e
      | Except.ok result => Except.ok (String.intercalate "\n" (output ++ [result]))
    else
      let wopts : WatchOptions :=
        { prNumber := prNumberList.headD 0
          notifyOn := options.notifyOn.getD NotifyFilter.all
          interval := parseInterval (jsOrStr options.interval "30s")
          untilCond := options.untilCond }
      let nopts : NotificationOptions :=
        { desktop := options.desktop.getD false, terminal := options.bell.getD false }
      catchE
        (Except.ok (executeSinglePR orc wopts nopts
          (options.noJiraTransition.getD false) output))
        (fun errorMessage =>
          let _ := Notifier.notifyError nopts orc.execSyncO "PR Watcher Crashed"
            ("Unexpected error for PR #" ++ toString wopts.prNumber ++ ": "
              ++ errorMessage) wopts.prNumber
          Except.ok ("❌ Error watching PR: " ++ errorMessage
            ++ "\n\nPlease ensure:\n- GitHub CLI (gh) is installed and authenticated\n- You have access to the repository\n- The PR number is correct"))

/-- The multi-PR entry point returns an `ok` report by construction:
every failure inside the loop body is handled by the translated catch. -/
theorem executeMultiPR_isOk (orc : Oracles) (prNumbers : List Nat)
    (options : MultiPROptions) :
    ∃ report, executeMultiPR orc prNumbers options = Except.ok report :=
  ⟨_, rfl⟩

/-- C8: never-raise top-level contract.  For every input and every
behavior of the external collaborators (resolver, fetcher, `execSync`
behind the notifier, the clock) — including any of them throwing at any
call — both the single/multi dispatching entry point `execute` and the
multi-PR entry point `executeMultiPR` return an `ok` textual report and
never propagate an exception (`Except.error`) to the caller; collaborator
errors surface only as inline text in the report. -/
theorem watch_entry_points_never_raise (orc : Oracles) (prIdentifiers : String)
    (options : ExecOptions) (prNumbers : List Nat) (moptions : MultiPROptions) :
    (∃ report, execute orc prIdentifiers options = Except.ok report) ∧
    (∃ report, executeMultiPR orc prNumbers moptions = Except.ok report) := by
  constructor
  · simp only [execute]
    cases hres : PRResolver.resolveMultiple orc.resolveTicketO
        ((prIdentifiers.splitOn ",").map (fun id => id.trim)) with
    | error e => exact ⟨_, rfl⟩
    | ok prNumberList =>
      dsimp only
      by_cases hlen : prNumberList.length > 1
      · rw [if_pos hlen]
        obtain ⟨r, hr⟩ := executeMultiPR_isOk orc prNumberList
          { notifyOn := options.notifyOn, interval := options.interval
            desktop := options.desktop, bell := options.bell
            noJiraTransition := options.noJiraTransition }
        rw [hr]
        exact ⟨_, rfl⟩
      · rw [if_neg hlen]
        exact ⟨_, rfl⟩
  · exact executeMultiPR_isOk orc prNumbers moptions
